import Mathlib

/-!
Verification of the stochastic-models library (OU / General-Linear MLE
likelihood cores, SDE simulators, OU hitting-time density, exponential
trading variant, and the KCA Kalman-filter state machine) against its
natural-language specification.

The C++ sources are embedded shallowly: `double` becomes `ℝ`,
`std::vector<double>` becomes `List ℝ`, in-place mutation becomes explicit
state passing, and thrown exceptions become explicit error values.  Each
definition mirrors the function of the same name in the repository.
-/

open List

noncomputable section

/-- Element-wise squares of a data series (`valuesSquared`,
`src/helpers.cpp`). -/
def valuesSquared (data : List ℝ) : List ℝ :=
  data.map (fun x => x ^ 2)

/-! ## Ornstein–Uhlenbeck likelihood core
(`src/ornstein_uhlenbeck_likelihood.cpp`) -/

/-- Sufficient statistics for the OU closed-form MLE
(`OrnsteinUhlenbeckLikelihoodComponents`). -/
structure OrnsteinUhlenbeckLikelihoodComponents where
  lead_sum : ℝ
  lag_sum : ℝ
  lead_sum_squared : ℝ
  lag_sum_squared : ℝ
  lead_lag_sum_product : ℝ
  n_obs : ℕ

/-- OU parameter bundle (`OrnsteinUhlenbeckParameters`). -/
structure OrnsteinUhlenbeckParameters where
  mu : ℝ
  alpha : ℝ
  sigma : ℝ

namespace OrnsteinUhlenbeckLikelihoodComponentCalculator

/-- `calculateLeadSum`: `std::reduce` over `[begin+1, end)`, seeded `0.0`. -/
def calculateLeadSum (data : List ℝ) : ℝ :=
  (data.drop 1).foldl (· + ·) 0

/-- `calculateLagSum`: `std::reduce` over `[begin, end-1)`, seeded `0.0`. -/
def calculateLagSum (data : List ℝ) : ℝ :=
  data.dropLast.foldl (· + ·) 0

/-- `calculateLeadSumSquared`: reduce of the squared series, first element
dropped. -/
def calculateLeadSumSquared (data : List ℝ) : ℝ :=
  ((valuesSquared data).drop 1).foldl (· + ·) 0

/-- `calculateLagSumSquared`: reduce of the squared series, last element
dropped. -/
def calculateLagSumSquared (data : List ℝ) : ℝ :=
  (valuesSquared data).dropLast.foldl (· + ·) 0

/-- `calculateLeadLagSumProduct`: `std::inner_product` of the lagged series
`x_0 … x_{n-2}` with the lead series `x_1 … x_{n-1}`, seeded `0.0`. -/
def calculateLeadLagSumProduct (data : List ℝ) : ℝ :=
  (data.dropLast.zip (data.drop 1)).foldl (fun a p => a + p.1 * p.2) 0

/-- `updateLeadSum`. -/
def updateLeadSum (lead_sum new_observation : ℝ) : ℝ :=
  lead_sum + new_observation

/-- `updateLagSum`. -/
def updateLagSum (lag_sum last_observation : ℝ) : ℝ :=
  lag_sum + last_observation

/-- `updateLeadSumSquared`. -/
def updateLeadSumSquared (lead_sum_squared new_observation : ℝ) : ℝ :=
  lead_sum_squared + new_observation ^ 2

/-- `updateLagSumSquared`. -/
def updateLagSumSquared (lag_sum_squared last_observation : ℝ) : ℝ :=
  lag_sum_squared + last_observation ^ 2

/-- `updateLeadLagSumProduct`. -/
def updateLeadLagSumProduct
    (lead_lag_sum_product new_observation last_observation : ℝ) : ℝ :=
  lead_lag_sum_product + last_observation * new_observation

/-- `calculateMu`: closed-form OU mean estimate. -/
def calculateMu (c : OrnsteinUhlenbeckLikelihoodComponents) : ℝ :=
  ((c.lead_sum * c.lag_sum_squared) - (c.lag_sum * c.lead_lag_sum_product)) /
    (((c.n_obs : ℝ) * (c.lag_sum_squared - c.lead_lag_sum_product)) -
      (c.lag_sum ^ 2 - c.lead_sum * c.lag_sum))

/-- `calculateAlpha`: closed-form OU mean-reversion-speed estimate. -/
def calculateAlpha (c : OrnsteinUhlenbeckLikelihoodComponents) (mu : ℝ) : ℝ :=
  Real.log
      (c.lag_sum_squared - 2 * mu * c.lag_sum + (c.n_obs : ℝ) * mu ^ 2) -
    Real.log
      (c.lead_lag_sum_product - mu * c.lag_sum - mu * c.lead_sum +
        (c.n_obs : ℝ) * mu ^ 2)

/-- `calculateSigma`: residual kernel, then `*= 1/n`, then
`*= 2·e^{-α}/(1 - (e^{-α})²)`, in source order. -/
def calculateSigma (c : OrnsteinUhlenbeckLikelihoodComponents)
    (mu alpha : ℝ) : ℝ :=
  let exp_alpha := Real.exp (-alpha)
  let sigma :=
    c.lead_sum_squared - 2 * exp_alpha * c.lead_lag_sum_product +
      exp_alpha ^ 2 * c.lag_sum_squared -
      (2 * mu * (1 - exp_alpha)) * (c.lead_sum - exp_alpha * c.lag_sum) +
      (c.n_obs : ℝ) * mu ^ 2 * (1 - exp_alpha) ^ 2
  sigma * (1 / (c.n_obs : ℝ)) * (2 * exp_alpha / (1 - exp_alpha ^ 2))

end OrnsteinUhlenbeckLikelihoodComponentCalculator

namespace OrnsteinUhlenbeckLikelihood

open OrnsteinUhlenbeckLikelihoodComponentCalculator

/-- `OrnsteinUhlenbeckLikelihood::calculateComponents`. -/
def calculateComponents (data : List ℝ) :
    OrnsteinUhlenbeckLikelihoodComponents :=
  { lead_sum := calculateLeadSum data
    lag_sum := calculateLagSum data
    lead_sum_squared := calculateLeadSumSquared data
    lag_sum_squared := calculateLagSumSquared data
    lead_lag_sum_product := calculateLeadLagSumProduct data
    n_obs := data.length }

/-- `OrnsteinUhlenbeckLikelihood::updateComponents`. -/
def updateComponents (c : OrnsteinUhlenbeckLikelihoodComponents)
    (new_observation last_observation : ℝ) :
    OrnsteinUhlenbeckLikelihoodComponents :=
  { lead_sum := updateLeadSum c.lead_sum new_observation
    lag_sum := updateLagSum c.lag_sum last_observation
    lead_sum_squared := updateLeadSumSquared c.lead_sum_squared new_observation
    lag_sum_squared := updateLagSumSquared c.lag_sum_squared last_observation
    lead_lag_sum_product :=
      updateLeadLagSumProduct c.lead_lag_sum_product new_observation
        last_observation
    n_obs := c.n_obs + 1 }

/-- `OrnsteinUhlenbeckLikelihood::calculateParameters`. -/
def calculateParameters (c : OrnsteinUhlenbeckLikelihoodComponents) :
    OrnsteinUhlenbeckParameters :=
  let mu := calculateMu c
  let alpha := calculateAlpha c mu
  let sigma := calculateSigma c mu alpha
  { mu := mu, alpha := alpha, sigma := sigma }

end OrnsteinUhlenbeckLikelihood

/-- One `OrnsteinUhlenbeckUpdater::updateState` step per trailing
`(new_observation, last_observation)` pair, starting from the batch
components of the first `k` samples (`src/ornstein_uhlenbeck_online.cpp`
driven as in the specification's split-point guarantee). -/
def ouBatchThenOnline (s : List ℝ) (k : ℕ) :
    OrnsteinUhlenbeckLikelihoodComponents :=
  ((s.drop k).zip (s.drop (k - 1))).foldl
    (fun c p => OrnsteinUhlenbeckLikelihood.updateComponents c p.1 p.2)
    (OrnsteinUhlenbeckLikelihood.calculateComponents (s.take k))

/-- The residual sum-of-squares kernel `K(μ, α, components)` of spec
§4.D.1 ("the kernel K is the residual sum-of-squares expansion given in
the source implementation"), written with `e^{-α}` factors spelled out. -/
def ouSigmaKernelK (c : OrnsteinUhlenbeckLikelihoodComponents)
    (mu alpha : ℝ) : ℝ :=
  c.lead_sum_squared -
    2 * Real.exp (-alpha) * c.lead_lag_sum_product +
    Real.exp (-alpha) ^ 2 * c.lag_sum_squared -
    (2 * mu * (1 - Real.exp (-alpha))) *
      (c.lead_sum - Real.exp (-alpha) * c.lag_sum) +
    (c.n_obs : ℝ) * mu ^ 2 * (1 - Real.exp (-alpha)) ^ 2

/-! ## General-Linear likelihood core
(`src/general_linear_likelihood.cpp`) -/

/-- Sufficient statistics for the General-Linear MLE
(`GeneralLinearLikelihoodComponents`). -/
structure GeneralLinearLikelihoodComponents where
  lag_squared : ℝ
  lead_lag_inner_product : ℝ
  squared_error : ℝ
  n_obs : ℕ

/-- General-Linear parameter bundle (`GeneralLinearParameters`). -/
structure GeneralLinearParameters where
  mu : ℝ
  sigma : ℝ

namespace GeneralLinearLikelihoodComponentCalculator

/-- `calculateSeriesMean`: guarded quotient. -/
def calculateSeriesMean (numerator denominator : ℝ) : ℝ :=
  if denominator = 0 ∨ numerator = 0 then 0 else numerator / denominator

/-- `calculateLeadLagInnerProduct`: `std::inner_product` of the lagged
series with the lead series, seeded `0.0`. -/
def calculateLeadLagInnerProduct (data : List ℝ) : ℝ :=
  (data.dropLast.zip (data.drop 1)).foldl (fun a p => a + p.1 * p.2) 0

/-- `calculateLagSquared`: reduce of the squared series with the FIRST
element dropped (the source advances the begin iterator by one, exactly as
in the lead-sum calculators). -/
def calculateLagSquared (data : List ℝ) : ℝ :=
  ((valuesSquared data).drop 1).foldl (· + ·) 0

/-- `calculateSquaredError`: `Σ_{i=1..n-1} (x_i - e^μ·x_{i-1})²`.  The
source throws `InvalidNumberObservationsError` for series of length ≤ 1;
on that path this embedding returns the empty sum. -/
def calculateSquaredError (data : List ℝ) (mu : ℝ) : ℝ :=
  ((data.drop 1).zip data.dropLast).foldl
    (fun a p => a + (p.1 - p.2 * Real.exp mu) ^ 2) 0

/-- `updateLeadLagInnerProduct`. -/
def updateLeadLagInnerProduct
    (lead_lag_inner_product new_observation last_observation : ℝ) : ℝ :=
  lead_lag_inner_product + last_observation * new_observation

/-- `updateLagSquared`: adds the squared previous observation. -/
def updateLagSquared (lag_squared last_observation : ℝ) : ℝ :=
  lag_squared + last_observation ^ 2

/-- `updateSquaredError`: Welford-style recurrence with factor
`n/(n+1)`. -/
def updateSquaredError (squared_error new_observation last_observation
    mean : ℝ) (n_observations : ℕ) : ℝ :=
  squared_error +
    ((n_observations : ℝ) / ((n_observations : ℝ) + 1)) *
      (new_observation - mean * last_observation) ^ 2

/-- `calculateMu`. -/
def calculateMu (c : GeneralLinearLikelihoodComponents) : ℝ :=
  Real.log (calculateSeriesMean c.lead_lag_inner_product c.lag_squared)

/-- `calculateSigma`. -/
def calculateSigma (c : GeneralLinearLikelihoodComponents) (mu : ℝ) : ℝ :=
  if c.squared_error ≠ 0 ∧ 0 < c.n_obs then
    Real.sqrt (c.squared_error / (c.n_obs : ℝ))
  else 0

end GeneralLinearLikelihoodComponentCalculator

namespace GeneralLinearLikelihood

open GeneralLinearLikelihoodComponentCalculator

/-- `GeneralLinearLikelihood::calculateComponents`. -/
def calculateComponents (data : List ℝ) : GeneralLinearLikelihoodComponents :=
  let lead_lag_inner_product := calculateLeadLagInnerProduct data
  let lag_squared := calculateLagSquared data
  { lag_squared := lag_squared
    lead_lag_inner_product := lead_lag_inner_product
    squared_error :=
      calculateSquaredError data
        (Real.log (calculateSeriesMean lead_lag_inner_product lag_squared))
    n_obs := data.length }

/-- `GeneralLinearLikelihood::updateComponents`. -/
def updateComponents (c : GeneralLinearLikelihoodComponents)
    (new_observation last_observation : ℝ) :
    GeneralLinearLikelihoodComponents :=
  let lag_squared := updateLagSquared c.lag_squared last_observation
  let lead_lag_inner_product :=
    updateLeadLagInnerProduct c.lead_lag_inner_product new_observation
      last_observation
  let mean := calculateSeriesMean lead_lag_inner_product lag_squared
  { lag_squared := lag_squared
    lead_lag_inner_product := lead_lag_inner_product
    squared_error :=
      updateSquaredError c.squared_error new_observation last_observation
        mean c.n_obs
    n_obs := c.n_obs + 1 }

/-- `GeneralLinearLikelihood::calculateParameters`. -/
def calculateParameters (c : GeneralLinearLikelihoodComponents) :
    GeneralLinearParameters :=
  let mu := calculateMu c
  let sigma := calculateSigma c mu
  { mu := mu, sigma := sigma }

end GeneralLinearLikelihood

/-- One `updateComponents` + `calculateParameters` step per trailing
`(new_observation, last_observation)` pair, starting from the batch
components of the first `k` samples — the General-Linear instance of the
specification's split-point guarantee. -/
def glBatchThenOnline (s : List ℝ) (k : ℕ) :
    GeneralLinearLikelihoodComponents :=
  ((s.drop k).zip (s.drop (k - 1))).foldl
    (fun c p => GeneralLinearLikelihood.updateComponents c p.1 p.2)
    (GeneralLinearLikelihood.calculateComponents (s.take k))

/-! ## SDE models (`src/ornstein_uhlenbeck.cpp`, `src/general_linear.cpp`)

`GaussianDistribution::sample(k)` is the library's only source of
nondeterminism; the draws it produces are surfaced here as an explicit
`List ℝ` argument, so that `Simulate` is the pure function of the draws
that the source computes. -/

/-- The simulation loop body shared by both models: starting from `x`,
repeatedly push `coreEquation(back, draw, t)` onto the series (one element
per draw). -/
def simulateFrom (step : ℝ → ℝ → ℝ) : ℝ → List ℝ → List ℝ
  | _, [] => []
  | x, e :: es => step x e :: simulateFrom step (step x e) es

/-- `OrnsteinUhlenbeckModel` (parameters only; the owned RNG is surfaced
as the draw list of `Simulate`). -/
structure OrnsteinUhlenbeckModel where
  mu : ℝ
  alpha : ℝ
  sigma : ℝ

namespace OrnsteinUhlenbeckModel

/-- `OrnsteinUhlenbeckModel::coreEquation`:
`x·e^{-α·t} + μ·(1 - e^{-α·t}) + t·σ·noise`. -/
def coreEquation (m : OrnsteinUhlenbeckModel) (x noise : ℝ) (t : ℕ) : ℝ :=
  let delta := Real.exp (-m.alpha * (t : ℝ))
  x * delta + m.mu * (1 - delta) + (t : ℝ) * m.sigma * noise

/-- `OrnsteinUhlenbeckModel::Simulate`: draws `size - 1` samples from the
distribution and pushes one core-equation step per draw onto `{start}`.
(The source's range-for binds each `double` draw to a
`const unsigned int&`; `draws` here holds the values the loop actually
feeds to `coreEquation` after that conversion, which does not affect the
series length.) -/
def Simulate (m : OrnsteinUhlenbeckModel) (start : ℝ) (size : ℕ) (t : ℕ)
    (draws : List ℝ) : List ℝ :=
  start :: simulateFrom (fun x e => m.coreEquation x e t) start draws

end OrnsteinUhlenbeckModel

/-- `GeneralLinearModel` (parameters only). -/
structure GeneralLinearModel where
  mu : ℝ
  sigma : ℝ

namespace GeneralLinearModel

/-- `GeneralLinearModel::coreEquation`:
`x·e^{μ·t} + e^{μ·t}·e^{-μ·t}·σ·noise` (the source's redundant
`e^{μ·t}·e^{-μ·t}` factor is kept). -/
def coreEquation (m : GeneralLinearModel) (x noise : ℝ) (t : ℕ) : ℝ :=
  let exp_mu_t := Real.exp (m.mu * (t : ℝ))
  x * exp_mu_t + exp_mu_t * Real.exp (-m.mu * (t : ℝ)) * m.sigma * noise

/-- `GeneralLinearModel::Simulate`: draws `size` samples and, starting
from `{start}`, pushes `coreEquation(vec[n], draws[n], t)` for
`n = 0 … size-1` (each iteration reads the element the previous one
pushed). -/
def Simulate (m : GeneralLinearModel) (start : ℝ) (size : ℕ) (t : ℕ)
    (draws : List ℝ) : List ℝ :=
  start :: simulateFrom (fun x e => m.coreEquation x e t) start
    (draws.take size)

end GeneralLinearModel

/-! ## Hitting-time kernel (`src/hitting_time_ornstein_uhlenbeck.cpp`,
`src/hitting_time_density.cpp`) -/

/-- `HittingTimeOrnsteinUhlenbeck`: OU parameter borrow for the
hitting-time kernels. -/
structure HittingTimeOrnsteinUhlenbeck where
  mu : ℝ
  alpha : ℝ
  sigma : ℝ

namespace HittingTimeOrnsteinUhlenbeck

/-- `hittingTimeDensityCore`: the kernel
`S(x) = exp(x·α·(x - 2μ)/σ²)`. -/
def hittingTimeDensityCore (m : HittingTimeOrnsteinUhlenbeck) (x : ℝ) : ℝ :=
  Real.exp (x * m.alpha * (x - 2 * m.mu) / m.sigma ^ 2)

/-- `optimalTradingFCore`:
`u^{r/α - 1} · exp(√(2α/σ²)·(x - μ)·u - u²/2)`. -/
def optimalTradingFCore (m : HittingTimeOrnsteinUhlenbeck)
    (x u r : ℝ) : ℝ :=
  u ^ (r / m.alpha - 1) *
    Real.exp (Real.sqrt (2 * m.alpha / m.sigma ^ 2) * (x - m.mu) * u -
      u ^ 2 / 2)

/-- `optimalTradingGCore`:
`u^{r/α - 1} · exp(√(2α/σ²)·(μ - x)·u - u²/2)`. -/
def optimalTradingGCore (m : HittingTimeOrnsteinUhlenbeck)
    (x u r : ℝ) : ℝ :=
  u ^ (r / m.alpha - 1) *
    Real.exp (Real.sqrt (2 * m.alpha / m.sigma ^ 2) * (m.mu - x) * u -
      u ^ 2 / 2)

/-- `optimalTradingLCore`: `(α·μ + r·c)/(r + α)`. -/
def optimalTradingLCore (m : HittingTimeOrnsteinUhlenbeck) (r c : ℝ) : ℝ :=
  (m.alpha * m.mu + r * c) / (r + m.alpha)

end HittingTimeOrnsteinUhlenbeck

/-- `adaptiveIntegration` (`numeric_utils/integration`): external GSL QAGS
primitive, specified by contract (spec §4.A) to return `∫ f over [lo, hi]`;
modelled as the interval integral. -/
def adaptiveIntegration (f : ℝ → ℝ) (lo hi : ℝ) : ℝ :=
  ∫ u in lo..hi, f u

/-- `semiInfiniteIntegrationUpper` (`numeric_utils/integration`): external
GSL QAGIU primitive, specified by contract (spec §4.A) to return
`∫ f over [lo, ∞)`; modelled as the Lebesgue integral over `Ioi lo`. -/
def semiInfiniteIntegrationUpper (f : ℝ → ℝ) (lo : ℝ) : ℝ :=
  ∫ u in Set.Ioi lo, f u

/-- `hittingTimeDensity` (`src/hitting_time_density.cpp`): the quotient of
`adaptiveIntegration(S, second, x)` by `adaptiveIntegration(S, second,
first)`, where the integrand is the model's `hittingTimeDensityCore`. -/
def hittingTimeDensity (m : HittingTimeOrnsteinUhlenbeck)
    (x first second : ℝ) : ℝ :=
  adaptiveIntegration m.hittingTimeDensityCore second x /
    adaptiveIntegration m.hittingTimeDensityCore second first

/-- `hittingTimeDensityOrnsteinUhlenbeck`
(`src/entrypoint_ou_model.cpp` / `src/interface.cpp`): the
`hitting_time_density_ou(x, μ, α, σ, a, b)` entry point with `a = first`,
`b = second`. -/
def hittingTimeDensityOrnsteinUhlenbeck
    (x mu alpha sigma first second : ℝ) : ℝ :=
  hittingTimeDensity ⟨mu, alpha, sigma⟩ x first second

/-! ## Exponential trading variant
(`src/exponential_mean_reversion.cpp`) -/

/-- Failure kind of the exponential variant's unsupported stop-loss
operations: the source throws `std::logic_error` ("does not implement …
with stop_loss parameter"), the `NotApplicable` kind of spec §7. -/
inductive TradingFailure where
  | NotApplicable
deriving DecidableEq

/-- `adaptiveCentralDifferentiation` (`numeric_utils/differentiation`):
external GSL central-difference primitive, specified by contract (spec
§4.A) to return the derivative of its integrand at `x`. -/
def adaptiveCentralDifferentiation (f : ℝ → ℝ) (x : ℝ) : ℝ :=
  deriv f x

namespace ExponentialMeanReversion

open HittingTimeOrnsteinUhlenbeck

/-- `ExponentialMeanReversion::F`: semi-infinite integral of the F-core
over `[0, ∞)`. -/
def F (m : HittingTimeOrnsteinUhlenbeck) (x r c : ℝ) : ℝ :=
  semiInfiniteIntegrationUpper (fun u => optimalTradingFCore m x u r) 0

/-- `ExponentialMeanReversion::G`: semi-infinite integral of the G-core
over `[0, ∞)`. -/
def G (m : HittingTimeOrnsteinUhlenbeck) (x r c : ℝ) : ℝ :=
  semiInfiniteIntegrationUpper (fun u => optimalTradingGCore m x u r) 0

/-- `ExponentialMeanReversion::V` (no stop-loss). -/
def V (m : HittingTimeOrnsteinUhlenbeck) (x b_star r c : ℝ) : ℝ :=
  if x < b_star then (Real.exp b_star - c) * F m x r c / F m b_star r c
  else Real.exp x - c

/-- `ExponentialMeanReversion::b` (no stop-loss): the exponential exit
root equation `e^x·F(x) - (e^x - c)·∂F/∂x`. -/
def b (m : HittingTimeOrnsteinUhlenbeck) (value r c : ℝ) : ℝ :=
  Real.exp value * F m value r c -
    (Real.exp value - c) *
      adaptiveCentralDifferentiation (fun y => F m y r c) value

/-- `ExponentialMeanReversion::b` (stop-loss overload): unconditionally
throws — no mathematical definition exists for the exponential model. -/
def bStopLoss (m : HittingTimeOrnsteinUhlenbeck)
    (value stop_loss r c : ℝ) : Except TradingFailure ℝ :=
  .error .NotApplicable

/-- `ExponentialMeanReversion::d` (stop-loss overload): unconditionally
throws. -/
def dStopLoss (m : HittingTimeOrnsteinUhlenbeck)
    (value b_star stop_loss r c : ℝ) : Except TradingFailure ℝ :=
  .error .NotApplicable

/-- `ExponentialMeanReversion::V` (stop-loss overload): unconditionally
throws. -/
def VStopLoss (m : HittingTimeOrnsteinUhlenbeck)
    (x b_star stop_loss r c : ℝ) : Except TradingFailure ℝ :=
  .error .NotApplicable

/-- `ExponentialMeanReversion::a` (stop-loss overload): unconditionally
throws. -/
def aStopLoss (m : HittingTimeOrnsteinUhlenbeck)
    (value b_star stop_loss r c : ℝ) : Except TradingFailure ℝ :=
  .error .NotApplicable

/-- `ExponentialMeanReversion::instantaneousDifferential` (stop-loss
overload): unconditionally throws. -/
def instantaneousDifferentialStopLoss (f : ℝ → ℝ)
    (m : HittingTimeOrnsteinUhlenbeck)
    (x b_star stop_loss r c : ℝ) : Except TradingFailure ℝ :=
  .error .NotApplicable

end ExponentialMeanReversion

/-! ## KCA Kalman-filter state (`src/states.cpp`, `src/filter.cpp`,
`src/adapters.cpp`, `src/interface.cpp`)

`boost::numeric::ublas::vector<double>` becomes `List ℝ` and
`matrix<double>` becomes `List (List ℝ)` (row major). -/

/-- Row-major matrix of reals. -/
abbrev Mat := List (List ℝ)

/-- Dense real vector. -/
abbrev Vec := List ℝ

/-- Dot product (seeded `0`). -/
def dotL (a b : Vec) : ℝ :=
  (a.zip b).foldl (fun s p => s + p.1 * p.2) 0

/-- `boost::numeric::ublas::trans`. -/
def transposeL (m : Mat) : Mat :=
  (List.range m.headI.length).map (fun j => m.map (fun row => row.getD j 0))

/-- `prod` of two matrices. -/
def matMul (A B : Mat) : Mat :=
  A.map (fun ar => (transposeL B).map (fun bc => dotL ar bc))

/-- `prod` of a matrix and a vector. -/
def matVecMul (A : Mat) (v : Vec) : Vec :=
  A.map (fun row => dotL row v)

/-- Element-wise matrix sum. -/
def matAdd (A B : Mat) : Mat :=
  List.zipWith (fun r s => List.zipWith (· + ·) r s) A B

/-- Element-wise matrix difference. -/
def matSub (A B : Mat) : Mat :=
  List.zipWith (fun r s => List.zipWith (· - ·) r s) A B

/-- Element-wise vector sum. -/
def vecAdd (a b : Vec) : Vec :=
  List.zipWith (· + ·) a b

/-- `add_scalar_to_matrix` (`src/type_conversion.cpp`). -/
def add_scalar_to_matrix (A : Mat) (scalar : ℝ) : Mat :=
  A.map (fun r => r.map (· + scalar))

/-- `add_scalar_to_vector` (`src/type_conversion.cpp`). -/
def add_scalar_to_vector (v : Vec) (scalar : ℝ) : Vec :=
  v.map (· + scalar)

/-- Freshly allocated boost vector of a given dimension (entries
modelled as `0`). -/
def zerosVec (n : ℕ) : Vec :=
  List.replicate n 0

/-- Freshly allocated boost matrix of given dimensions (entries modelled
as `0`). -/
def zerosMat (r c : ℕ) : Mat :=
  List.replicate r (zerosVec c)

/-- `BoostMartixInverter::invertMatrix` (`src/linalg.cpp`): GSL LU
decomposition + inversion, an external primitive used by contract; on
invertible input LU inversion computes the classical matrix inverse,
modelled here through Mathlib's inverse of the square-matrix view. -/
def invertMatrix (M : Mat) : Mat :=
  let n := M.length
  let A : Matrix (Fin n) (Fin n) ℝ := fun i j => (M.getD i []).getD j 0
  let B := A⁻¹
  (List.range n).map (fun i =>
    (List.range n).map (fun j =>
      if hi : i < n then if hj : j < n then B ⟨i, hi⟩ ⟨j, hj⟩ else 0 else 0))

/-- `FilterSystemDimensions` (`src/states.cpp`). -/
structure FilterSystemDimensions where
  state_mean_dimension : ℕ
  state_covariance_rows : ℕ
  state_covariance_columns : ℕ
  observation_matrix_rows : ℕ
  observation_matrix_columns : ℕ
  observation_covariance_rows : ℕ
  observation_covariance_columns : ℕ
  observation_offset : ℝ

/-- `PriorState` data bundle. -/
structure PriorState where
  predicted_observation_mean : Vec
  predicted_state_mean : Vec
  predicted_observation_covariance : Mat
  predicted_state_covariance : Mat
  observation_matrix : Mat
  observation_offset : ℝ

/-- `PosteriorState` data bundle. -/
structure PosteriorState where
  current_state_mean : Vec
  current_state_covariance : Mat

/-- `TransitionState` data bundle. -/
structure TransitionState where
  transition_matrix : Mat
  transition_covariance : Mat

/-- `FilterState` phase flags; the default constructor sets both to
`false`. -/
structure FilterState where
  initialised : Bool
  priors_set : Bool

/-- `KcaStates` (`src/states.cpp`): the full filter state bundle. -/
structure KcaStates where
  prior_state : PriorState
  posterior_state : PosteriorState
  transition_state : TransitionState
  filter_state : FilterState

/-- Failure kinds raised by the KCA state machine
(`states_exceptions.h`): `filter_uninitialised` and
`filter_invalid_operation`. -/
inductive FilterFailure where
  | NotInitialised
  | InvalidOperation
deriving DecidableEq

/-- Writing a `std::vector` through a target iterator (`std::move` /
element loop in the `KcaStates` setters): the source elements overwrite
the prefix of the target and the remainder of the target survives.  When
the two have equal length this is exact replacement. -/
def overwriteList (src tgt : List ℝ) : List ℝ :=
  src ++ tgt.drop src.length

/-- `KcaStates::move_std_vectors_to_matrix` / row-loop matrix setters:
rows `0 … src.rows-1` of the target are overwritten, later target rows
survive. -/
def overwriteRows (src tgt : Mat) : Mat :=
  List.zipWith overwriteList src tgt ++ tgt.drop src.length

namespace KcaStates

/-- `KcaStates::KcaStates(dimensions)`: allocates every vector/matrix at
the dimensioned shape and default-constructs the flags to `false`. -/
def ofDimensions (d : FilterSystemDimensions) : KcaStates :=
  { prior_state :=
      { predicted_observation_mean := zerosVec d.state_mean_dimension
        predicted_state_mean := zerosVec d.state_mean_dimension
        predicted_observation_covariance :=
          zerosMat d.observation_covariance_rows
            d.observation_covariance_columns
        predicted_state_covariance :=
          zerosMat d.state_covariance_rows d.state_covariance_columns
        observation_matrix :=
          zerosMat d.observation_matrix_rows d.observation_matrix_columns
        observation_offset := d.observation_offset }
    posterior_state :=
      { current_state_mean := zerosVec d.state_mean_dimension
        current_state_covariance :=
          zerosMat d.state_covariance_rows d.state_covariance_columns }
    transition_state :=
      { transition_matrix :=
          zerosMat d.state_covariance_rows d.state_covariance_columns
        transition_covariance :=
          zerosMat d.state_covariance_rows d.state_covariance_columns }
    filter_state := { initialised := false, priors_set := false } }

/-- `KcaStates::setCurrentStateMean`. -/
def setCurrentStateMean (s : KcaStates) (v : Vec) : KcaStates :=
  { s with
    posterior_state.current_state_mean :=
      overwriteList v s.posterior_state.current_state_mean }

/-- `KcaStates::setCurrentStateCovariance`. -/
def setCurrentStateCovariance (s : KcaStates) (m : Mat) : KcaStates :=
  { s with
    posterior_state.current_state_covariance :=
      overwriteRows m s.posterior_state.current_state_covariance }

/-- `KcaStates::setObservationMatrix`. -/
def setObservationMatrix (s : KcaStates) (m : Mat) : KcaStates :=
  { s with
    prior_state.observation_matrix :=
      overwriteRows m s.prior_state.observation_matrix }

/-- `KcaStates::setObservationOffset`. -/
def setObservationOffset (s : KcaStates) (o : ℝ) : KcaStates :=
  { s with prior_state.observation_offset := o }

/-- `KcaStates::setPredictedObservationCovariance`. -/
def setPredictedObservationCovariance (s : KcaStates) (m : Mat) :
    KcaStates :=
  { s with
    prior_state.predicted_observation_covariance :=
      overwriteRows m s.prior_state.predicted_observation_covariance }

/-- `KcaStates::setPredictedObservationMean`. -/
def setPredictedObservationMean (s : KcaStates) (v : Vec) : KcaStates :=
  { s with
    prior_state.predicted_observation_mean :=
      overwriteList v s.prior_state.predicted_observation_mean }

/-- `KcaStates::setPredictedStateCovariance`. -/
def setPredictedStateCovariance (s : KcaStates) (m : Mat) : KcaStates :=
  { s with
    prior_state.predicted_state_covariance :=
      overwriteRows m s.prior_state.predicted_state_covariance }

/-- `KcaStates::setPredictedStateMean`. -/
def setPredictedStateMean (s : KcaStates) (v : Vec) : KcaStates :=
  { s with
    prior_state.predicted_state_mean :=
      overwriteList v s.prior_state.predicted_state_mean }

/-- `KcaStates::setTransitionCovariance`. -/
def setTransitionCovariance (s : KcaStates) (m : Mat) : KcaStates :=
  { s with
    transition_state.transition_covariance :=
      overwriteRows m s.transition_state.transition_covariance }

/-- `KcaStates::setTransitionMatrix`. -/
def setTransitionMatrix (s : KcaStates) (m : Mat) : KcaStates :=
  { s with
    transition_state.transition_matrix :=
      overwriteRows m s.transition_state.transition_matrix }

/-- `KcaStates::setInitialized`. -/
def setInitialized (s : KcaStates) : KcaStates :=
  { s with filter_state.initialised := true }

/-- `KcaStates::setPriorsTrue`. -/
def setPriorsTrue (s : KcaStates) : KcaStates :=
  { s with filter_state.priors_set := true }

/-- `KcaStates::setPriorsFalse`. -/
def setPriorsFalse (s : KcaStates) : KcaStates :=
  { s with filter_state.priors_set := false }

/-- `KcaStates::updatePredictedState`: the predict phase.  The thrown
`filter_uninitialised` is returned alongside the (unmutated) state. -/
def updatePredictedState (s : KcaStates) :
    Option FilterFailure × KcaStates :=
  if s.filter_state.initialised = false then (some .NotInitialised, s)
  else
    let T := s.transition_state.transition_matrix
    let predicted_state_mean :=
      matVecMul T s.posterior_state.current_state_mean
    let current_state_transition_matrix :=
      matMul s.posterior_state.current_state_covariance (transposeL T)
    let predicted_state_covariance :=
      matAdd (matMul T current_state_transition_matrix)
        s.transition_state.transition_covariance
    (none,
      ((s.setPredictedStateMean predicted_state_mean).setPredictedStateCovariance
        predicted_state_covariance).setPriorsTrue)

/-- `KcaStates::updateCurrentState`: the update phase.  Both guards fire
before any mutation; the computed posteriors are stored and the priors
are invalidated on success. -/
def updateCurrentState (s : KcaStates)
    (observation innovation_sigma : ℝ) :
    Option FilterFailure × KcaStates :=
  if s.filter_state.initialised = false then (some .NotInitialised, s)
  else if s.filter_state.priors_set = false then
    (some .InvalidOperation, s)
  else
    let H := s.prior_state.observation_matrix
    let predicted_observation_mean :=
      add_scalar_to_vector (matVecMul H s.prior_state.predicted_state_mean)
        s.prior_state.observation_offset
    let predicted_observation_covariance :=
      add_scalar_to_matrix
        (matMul H
          (matMul s.prior_state.predicted_state_covariance (transposeL H)))
        (innovation_sigma ^ 2)
    let kalman_gain :=
      matMul s.prior_state.predicted_state_covariance
        (matMul (transposeL H) (invertMatrix predicted_observation_covariance))
    let innovation := observation - predicted_observation_mean.getD 0 0
    let kalman_gain_vector := kalman_gain.map (fun row => row.getD 0 0)
    let current_state_mean :=
      vecAdd s.prior_state.predicted_state_mean
        (kalman_gain_vector.map (· * innovation))
    let current_state_covariance :=
      matSub s.prior_state.predicted_state_covariance
        (matMul kalman_gain
          (matMul H s.prior_state.predicted_state_covariance))
    (none,
      (((((s.setPredictedObservationMean
            predicted_observation_mean).setPredictedObservationCovariance
            predicted_observation_covariance).setCurrentStateMean
            current_state_mean).setCurrentStateCovariance
            current_state_covariance).setPriorsFalse))

end KcaStates

namespace KineticComponents

/-- `KineticComponents::updatePriors` (`src/filter.cpp`): delegates to
`updatePredictedState`; a `filter_uninitialised` failure is rewrapped
with an explanatory message, preserving the kind. -/
def updatePriors (s : KcaStates) : Option FilterFailure × KcaStates :=
  s.updatePredictedState

/-- `KineticComponents::updatePosteriors` (`src/filter.cpp`): delegates
to `updateCurrentState`; a `filter_invalid_operation` failure is
rethrown with the same kind. -/
def updatePosteriors (s : KcaStates)
    (observation innovation_sigma : ℝ) :
    Option FilterFailure × KcaStates :=
  s.updateCurrentState observation innovation_sigma

end KineticComponents

/-- The six represented fields of the serialized KCA state document
(`state_blob` of spec §6); the JSON text layer (key order, formatting)
is abstracted away. -/
structure KcaStateBlob where
  transition_matrix : Mat
  transition_covariance : Mat
  current_state_mean : Vec
  current_state_covariance : Mat
  observation_matrix : Mat
  observation_offset : ℝ

namespace KcaStatesJsonAdapter

/-- `KcaStatesJsonAdapter::serialize` (`src/adapters.cpp`): reads the six
represented fields back out of the state. -/
def serialize (kca_states : KcaStates) : KcaStateBlob :=
  { transition_matrix := kca_states.transition_state.transition_matrix
    transition_covariance :=
      kca_states.transition_state.transition_covariance
    current_state_mean := kca_states.posterior_state.current_state_mean
    current_state_covariance :=
      kca_states.posterior_state.current_state_covariance
    observation_matrix := kca_states.prior_state.observation_matrix
    observation_offset := kca_states.prior_state.observation_offset }

/-- `KcaStatesJsonAdapter::deserialize` (`src/adapters.cpp`): constructs
`KcaStates(dimensions)`, moves the six blob fields in through the setters
in source order, and marks the state initialised. -/
def deserialize (state : KcaStateBlob) (dimensions : FilterSystemDimensions) :
    KcaStates :=
  ((((((KcaStates.ofDimensions dimensions).setTransitionMatrix
      state.transition_matrix).setTransitionCovariance
      state.transition_covariance).setCurrentStateMean
      state.current_state_mean).setCurrentStateCovariance
      state.current_state_covariance).setObservationMatrix
      state.observation_matrix).setObservationOffset
      state.observation_offset |>.setInitialized

end KcaStatesJsonAdapter

/-- `getUpdatedKcaState` (`src/interface.cpp`): deserialize the blob,
run one predict (`updatePriors`) and one update (`updatePosteriors`),
and serialize the result.  String parsing happens before this point;
a parse failure raises `StateParse` and never reaches this pipeline. -/
def getUpdatedKcaState (state : KcaStateBlob)
    (system_dimensions : FilterSystemDimensions)
    (observation innovation_sigma : ℝ) :
    Except FilterFailure KcaStateBlob :=
  let internal_state :=
    KcaStatesJsonAdapter.deserialize state system_dimensions
  match KineticComponents.updatePriors internal_state with
  | (some e, _) => .error e
  | (none, s1) =>
    match KineticComponents.updatePosteriors s1 observation
        innovation_sigma with
    | (some e, _) => .error e
    | (none, s2) => .ok (KcaStatesJsonAdapter.serialize s2)

/-- Shape of a row-major matrix: `r` rows, each of length `c`. -/
def matShape (M : Mat) (r c : ℕ) : Prop :=
  M.length = r ∧ ∀ row ∈ M, row.length = c

instance (M : Mat) (r c : ℕ) : Decidable (matShape M r c) := by
  unfold matShape
  infer_instance

/-! ## Helper lemmas -/

lemma foldl_add_eq_sum {α : Type} (f : α → ℝ) (l : List α) (c : ℝ) :
    l.foldl (fun a x => a + f x) c = c + (l.map f).sum := by
  induction l generalizing c with
  | nil => simp
  | cons hd tl ih => simp [ih]; ring

lemma foldl_plus_eq_sum (l : List ℝ) (c : ℝ) :
    l.foldl (· + ·) c = c + l.sum := by
  induction l generalizing c with
  | nil => simp
  | cons hd tl ih => simp [ih]; ring

lemma length_simulateFrom (step : ℝ → ℝ → ℝ) (x : ℝ) (l : List ℝ) :
    (simulateFrom step x l).length = l.length := by
  induction l generalizing x with
  | nil => simp [simulateFrom]
  | cons hd tl ih => simp [simulateFrom, ih]

lemma calculateSigma_closed_form
    (c : OrnsteinUhlenbeckLikelihoodComponents) (mu alpha : ℝ) :
    OrnsteinUhlenbeckLikelihoodComponentCalculator.calculateSigma c mu alpha =
      2 * Real.exp (-alpha) / (1 - Real.exp (-2 * alpha)) *
        (1 / (c.n_obs : ℝ)) * ouSigmaKernelK c mu alpha := by
  simp only [OrnsteinUhlenbeckLikelihoodComponentCalculator.calculateSigma,
    ouSigmaKernelK]
  rw [show (-2 : ℝ) * alpha = -alpha + -alpha by ring, Real.exp_add]
  ring

/-! ## Claim theorems -/

/-- Claim C3 (counterexample): on the two-point series `[1, 2]` the
`lag_squared` component computed by `calculateLagSquared` is `4 = x₁²`,
not the claimed `Σ_{i=0..n-2} x_i² = x₀² = 1`. -/
theorem spec_C3_counterexample :
    ¬ (GeneralLinearLikelihoodComponentCalculator.calculateLagSquared [1, 2] =
      ((([1, 2] : List ℝ).dropLast).map (fun x => x ^ 2)).sum) := by
  norm_num [GeneralLinearLikelihoodComponentCalculator.calculateLagSquared,
    valuesSquared]

/-- Claim C3 (amended): `calculateLagSquared` returns the sum of the
squared observations with the FIRST observation excluded and the final
observation included, `Σ_{i=1..n-1} x_i²`. -/
theorem spec_C3 (data : List ℝ) :
    GeneralLinearLikelihoodComponentCalculator.calculateLagSquared data =
      ((data.drop 1).map (fun x => x ^ 2)).sum := by
  simp only [GeneralLinearLikelihoodComponentCalculator.calculateLagSquared,
    valuesSquared, foldl_plus_eq_sum, zero_add, ← List.map_drop]

/-- Claim C5: the value returned as `sigma` by `calculateSigma` at the
estimates `μ̂ = calculateMu`, `α̂ = calculateAlpha` equals the closed form
`(2·e^{-α̂}/(1 - e^{-2α̂})) · (1/n) · K(μ̂, α̂, components)`, with no square
root applied before returning. -/
theorem spec_C5 (c : OrnsteinUhlenbeckLikelihoodComponents) :
    OrnsteinUhlenbeckLikelihoodComponentCalculator.calculateSigma c
        (OrnsteinUhlenbeckLikelihoodComponentCalculator.calculateMu c)
        (OrnsteinUhlenbeckLikelihoodComponentCalculator.calculateAlpha c
          (OrnsteinUhlenbeckLikelihoodComponentCalculator.calculateMu c)) =
      2 * Real.exp
          (-(OrnsteinUhlenbeckLikelihoodComponentCalculator.calculateAlpha c
            (OrnsteinUhlenbeckLikelihoodComponentCalculator.calculateMu c))) /
        (1 - Real.exp
          (-2 * OrnsteinUhlenbeckLikelihoodComponentCalculator.calculateAlpha c
            (OrnsteinUhlenbeckLikelihoodComponentCalculator.calculateMu c))) *
        (1 / (c.n_obs : ℝ)) *
        ouSigmaKernelK c
          (OrnsteinUhlenbeckLikelihoodComponentCalculator.calculateMu c)
          (OrnsteinUhlenbeckLikelihoodComponentCalculator.calculateAlpha c
            (OrnsteinUhlenbeckLikelihoodComponentCalculator.calculateMu c)) :=
  calculateSigma_closed_form c _ _

/-- Claim C8: every stop-loss call on the exponential trading variant
(the stop-loss overloads of `b`, `d`, `a`, `V` and
`instantaneousDifferential`) fails with the `NotApplicable` kind and
returns no value. -/
theorem spec_C8 (f : ℝ → ℝ) (m : HittingTimeOrnsteinUhlenbeck)
    (value x b_star stop_loss r c : ℝ) :
    ExponentialMeanReversion.bStopLoss m value stop_loss r c =
        .error .NotApplicable ∧
      ExponentialMeanReversion.dStopLoss m value b_star stop_loss r c =
        .error .NotApplicable ∧
      ExponentialMeanReversion.aStopLoss m value b_star stop_loss r c =
        .error .NotApplicable ∧
      ExponentialMeanReversion.VStopLoss m x b_star stop_loss r c =
        .error .NotApplicable ∧
      ExponentialMeanReversion.instantaneousDifferentialStopLoss f m x
          b_star stop_loss r c =
        .error .NotApplicable :=
  ⟨rfl, rfl, rfl, rfl, rfl⟩

/-- Claim C4 (counterexample): `GeneralLinearModel::Simulate` asked for a
single sample returns a series of length 2, not 1 (the start value plus
`size` pushed samples). -/
theorem spec_C4_counterexample :
    ¬ ((GeneralLinearModel.Simulate ⟨0, 1⟩ 0 1 1 [0]).length = 1) := by
  simp [GeneralLinearModel.Simulate, length_simulateFrom]

/-- Claim C4 (amended): for `n ≥ 1` and a draw list of the length the
sampler produces, `OrnsteinUhlenbeckModel::Simulate` returns exactly `n`
samples, while `GeneralLinearModel::Simulate` returns `n + 1` samples
(the start value followed by `n` pushed samples). -/
theorem spec_C4 :
    (∀ (m : OrnsteinUhlenbeckModel) (start : ℝ) (size t : ℕ)
        (draws : List ℝ), draws.length = size - 1 → 1 ≤ size →
        (m.Simulate start size t draws).length = size) ∧
      ∀ (m : GeneralLinearModel) (start : ℝ) (size t : ℕ)
        (draws : List ℝ), draws.length = size →
        (m.Simulate start size t draws).length = size + 1 := by
  constructor
  · intro m start size t draws hlen hsize
    simp only [OrnsteinUhlenbeckModel.Simulate, List.length_cons,
      length_simulateFrom, hlen]
    omega
  · intro m start size t draws hlen
    simp only [GeneralLinearModel.Simulate, List.length_cons,
      length_simulateFrom, List.length_take, hlen]
    omega

/-- Concrete instantiation of the amended claim C4: an OU simulation of
size 3 (two draws) has exactly 3 samples, and a General-Linear simulation
of size 2 (two draws) has 3 samples. -/
theorem spec_C4_witness :
    (([0, 0] : List ℝ).length = 3 - 1 ∧ 1 ≤ 3 ∧
        (OrnsteinUhlenbeckModel.Simulate ⟨0, 1, 1⟩ 0 3 1 [0, 0]).length = 3) ∧
      ([0, 0] : List ℝ).length = 2 ∧
        (GeneralLinearModel.Simulate ⟨0, 1⟩ 0 2 1 [0, 0]).length = 2 + 1 :=
  ⟨⟨by norm_num, by norm_num,
      spec_C4.1 ⟨0, 1, 1⟩ 0 3 1 [0, 0] (by norm_num) (by norm_num)⟩,
    by norm_num, spec_C4.2 ⟨0, 1⟩ 0 2 1 [0, 0] (by norm_num)⟩

namespace OrnsteinUhlenbeckLikelihoodComponentCalculator

lemma calculateLeadSum_sum (d : List ℝ) :
    calculateLeadSum d = (d.drop 1).sum := by
  simp [calculateLeadSum, foldl_plus_eq_sum]

lemma calculateLagSum_sum (d : List ℝ) :
    calculateLagSum d = d.dropLast.sum := by
  simp [calculateLagSum, foldl_plus_eq_sum]

lemma calculateLeadSumSquared_sum (d : List ℝ) :
    calculateLeadSumSquared d = ((valuesSquared d).drop 1).sum := by
  simp [calculateLeadSumSquared, foldl_plus_eq_sum]

lemma calculateLagSumSquared_sum (d : List ℝ) :
    calculateLagSumSquared d = (valuesSquared d).dropLast.sum := by
  simp [calculateLagSumSquared, foldl_plus_eq_sum]

lemma calculateLeadLagSumProduct_sum (d : List ℝ) :
    calculateLeadLagSumProduct d =
      ((d.dropLast.zip (d.drop 1)).map (fun p => p.1 * p.2)).sum := by
  simp [calculateLeadLagSumProduct, foldl_add_eq_sum]

end OrnsteinUhlenbeckLikelihoodComponentCalculator

lemma valuesSquared_append (l : List ℝ) (b : ℝ) :
    valuesSquared (l ++ [b]) = valuesSquared l ++ [b ^ 2] := by
  simp [valuesSquared]

namespace OrnsteinUhlenbeckLikelihood

open OrnsteinUhlenbeckLikelihoodComponentCalculator

/-- One incremental OU update with the pair `(a, b)` on top of the batch
components of a series ending in `b` reproduces the batch components of
the extended series. -/
lemma updateComponents_concat (l : List ℝ) (b a : ℝ) :
    updateComponents (calculateComponents (l ++ [b])) a b =
      calculateComponents (l ++ [b] ++ [a]) := by
  have hdrop : ((l ++ [b]) ++ [a]).drop 1 = (l ++ [b]).drop 1 ++ [a] :=
    List.drop_append_of_le_length (by simp)
  have hdropsq : (valuesSquared (l ++ [b]) ++ [a ^ 2]).drop 1 =
      (valuesSquared (l ++ [b])).drop 1 ++ [a ^ 2] :=
    List.drop_append_of_le_length (by simp [valuesSquared])
  simp only [updateComponents, calculateComponents,
    OrnsteinUhlenbeckLikelihoodComponents.mk.injEq,
    updateLeadSum, updateLagSum, updateLeadSumSquared, updateLagSumSquared,
    updateLeadLagSumProduct]
  refine ⟨?_, ?_, ?_, ?_, ?_, ?_⟩
  · rw [calculateLeadSum_sum, calculateLeadSum_sum, hdrop]
    simp
  · rw [calculateLagSum_sum, calculateLagSum_sum, List.dropLast_concat,
      List.dropLast_concat]
    simp
  · have h3 : ((valuesSquared l ++ [b ^ 2]) ++ [a ^ 2]).drop 1 =
        (valuesSquared l ++ [b ^ 2]).drop 1 ++ [a ^ 2] :=
      List.drop_append_of_le_length
        (by simp only [List.length_append, List.length_cons,
          List.length_nil]; omega)
    rw [calculateLeadSumSquared_sum, calculateLeadSumSquared_sum,
      valuesSquared_append (l ++ [b]) a, valuesSquared_append l b, h3]
    simp
  · rw [calculateLagSumSquared_sum, calculateLagSumSquared_sum,
      valuesSquared_append (l ++ [b]) a, List.dropLast_concat,
      valuesSquared_append l b, List.dropLast_concat]
    simp
  · rw [calculateLeadLagSumProduct_sum, calculateLeadLagSumProduct_sum,
      List.dropLast_concat, List.dropLast_concat, hdrop,
      List.zip_append (by simp)]
    simp
  · simp

end OrnsteinUhlenbeckLikelihood

/-- The split-point procedure reproduces the full-series batch OU
components exactly, for every split point `1 ≤ k`. -/
lemma ouBatchThenOnline_eq (s : List ℝ) (k : ℕ) (hk : 1 ≤ k) :
    ouBatchThenOnline s k =
      OrnsteinUhlenbeckLikelihood.calculateComponents s := by
  obtain ⟨n, hn⟩ : ∃ n, s.length - k = n := ⟨_, rfl⟩
  induction n generalizing k with
  | zero =>
    have hks : s.length ≤ k := by omega
    simp [ouBatchThenOnline, List.drop_eq_nil_of_le hks,
      List.take_of_length_le hks]
  | succ n ih =>
    have hlt : k < s.length := by omega
    have hk1 : k - 1 < s.length := by omega
    have hkk : k - 1 + 1 = k := by omega
    rw [ouBatchThenOnline, List.drop_eq_getElem_cons hlt,
      List.drop_eq_getElem_cons hk1, hkk, List.zip_cons_cons,
      List.foldl_cons]
    have hdecomp : s.take k = s.take (k - 1) ++ [s[k - 1]] := by
      conv_lhs => rw [show k = (k - 1) + 1 by omega]
      rw [List.take_succ]
      simp [List.getElem?_eq_getElem hk1]
    rw [hdecomp, OrnsteinUhlenbeckLikelihood.updateComponents_concat]
    have htake : s.take (k + 1) = (s.take (k - 1) ++ [s[k - 1]]) ++ [s[k]] := by
      rw [← hdecomp, List.take_succ]
      simp [List.getElem?_eq_getElem hlt]
    rw [← htake]
    have h2 := ih (k + 1) (by omega) (by omega)
    rw [ouBatchThenOnline, Nat.add_sub_cancel] at h2
    exact h2

/-- Claim C1: for every series of length ≥ 2 and every split point
`k ≥ 1`, the OU batch estimator on the first `k` samples followed by one
`updateComponents` + `calculateParameters` step per trailing
`(new_observation, last_observation)` pair yields exactly the parameters
of the batch estimator on the full series (the two paths perform the same
additions in the same order, so the agreement is exact). -/
theorem spec_C1 (s : List ℝ) (k : ℕ) (h : 2 ≤ s.length) (hk : 1 ≤ k) :
    OrnsteinUhlenbeckLikelihood.calculateParameters (ouBatchThenOnline s k) =
      OrnsteinUhlenbeckLikelihood.calculateParameters
        (OrnsteinUhlenbeckLikelihood.calculateComponents s) := by
  rw [ouBatchThenOnline_eq s k hk]

/-- Concrete instantiation of claim C1 on the series `[1, 2, 3]` split at
`k = 2`. -/
theorem spec_C1_witness :
    2 ≤ ([1, 2, 3] : List ℝ).length ∧ 1 ≤ 2 ∧
      OrnsteinUhlenbeckLikelihood.calculateParameters
          (ouBatchThenOnline [1, 2, 3] 2) =
        OrnsteinUhlenbeckLikelihood.calculateParameters
          (OrnsteinUhlenbeckLikelihood.calculateComponents [1, 2, 3]) :=
  ⟨by norm_num, by norm_num, spec_C1 [1, 2, 3] 2 (by norm_num) (by norm_num)⟩

lemma gl_foldl_lag_squared (pairs : List (ℝ × ℝ))
    (c : GeneralLinearLikelihoodComponents) :
    (pairs.foldl
        (fun c p => GeneralLinearLikelihood.updateComponents c p.1 p.2)
        c).lag_squared =
      c.lag_squared + (pairs.map (fun p => p.2 ^ 2)).sum := by
  induction pairs generalizing c with
  | nil => simp
  | cons hd tl ih =>
    rw [List.foldl_cons, ih]
    simp only [GeneralLinearLikelihood.updateComponents,
      GeneralLinearLikelihoodComponentCalculator.updateLagSquared,
      List.map_cons, List.sum_cons]
    ring

lemma gl_foldl_inner_product (pairs : List (ℝ × ℝ))
    (c : GeneralLinearLikelihoodComponents) :
    (pairs.foldl
        (fun c p => GeneralLinearLikelihood.updateComponents c p.1 p.2)
        c).lead_lag_inner_product =
      c.lead_lag_inner_product + (pairs.map (fun p => p.2 * p.1)).sum := by
  induction pairs generalizing c with
  | nil => simp
  | cons hd tl ih =>
    rw [List.foldl_cons, ih]
    simp only [GeneralLinearLikelihood.updateComponents,
      GeneralLinearLikelihoodComponentCalculator.updateLeadLagInnerProduct,
      List.map_cons, List.sum_cons]
    ring

lemma gl_foldl_n_obs (pairs : List (ℝ × ℝ))
    (c : GeneralLinearLikelihoodComponents) :
    (pairs.foldl
        (fun c p => GeneralLinearLikelihood.updateComponents c p.1 p.2)
        c).n_obs = c.n_obs + pairs.length := by
  induction pairs generalizing c with
  | nil => simp
  | cons hd tl ih =>
    rw [List.foldl_cons, ih]
    simp only [GeneralLinearLikelihood.updateComponents, List.length_cons]
    omega

lemma ou_foldl_lag_sum_squared (pairs : List (ℝ × ℝ))
    (c : OrnsteinUhlenbeckLikelihoodComponents) :
    (pairs.foldl
        (fun c p => OrnsteinUhlenbeckLikelihood.updateComponents c p.1 p.2)
        c).lag_sum_squared =
      c.lag_sum_squared + (pairs.map (fun p => p.2 ^ 2)).sum := by
  induction pairs generalizing c with
  | nil => simp
  | cons hd tl ih =>
    rw [List.foldl_cons, ih]
    simp only [OrnsteinUhlenbeckLikelihood.updateComponents,
      OrnsteinUhlenbeckLikelihoodComponentCalculator.updateLagSumSquared,
      List.map_cons, List.sum_cons]
    ring

lemma ou_foldl_sum_product (pairs : List (ℝ × ℝ))
    (c : OrnsteinUhlenbeckLikelihoodComponents) :
    (pairs.foldl
        (fun c p => OrnsteinUhlenbeckLikelihood.updateComponents c p.1 p.2)
        c).lead_lag_sum_product =
      c.lead_lag_sum_product + (pairs.map (fun p => p.2 * p.1)).sum := by
  induction pairs generalizing c with
  | nil => simp
  | cons hd tl ih =>
    rw [List.foldl_cons, ih]
    simp only [OrnsteinUhlenbeckLikelihood.updateComponents,
      OrnsteinUhlenbeckLikelihoodComponentCalculator.updateLeadLagSumProduct,
      List.map_cons, List.sum_cons]
    ring

/-- The General-Linear batch inner product coincides with the OU batch
cross product: the two sources contain the same computation. -/
lemma llip_eq_sum_product (d : List ℝ) :
    GeneralLinearLikelihoodComponentCalculator.calculateLeadLagInnerProduct d =
      OrnsteinUhlenbeckLikelihoodComponentCalculator.calculateLeadLagSumProduct
        d := rfl

lemma drop_one_squares_sum (l : List ℝ) (h : l ≠ []) :
    ((valuesSquared l).drop 1).sum + (l.getD 0 0) ^ 2 =
      (valuesSquared l).sum := by
  obtain ⟨x, xs, rfl⟩ := List.exists_cons_of_ne_nil h
  simp [valuesSquared]
  ring

lemma dropLast_squares_sum (l : List ℝ) (h : l ≠ []) :
    ((valuesSquared l).dropLast).sum + (l.getD (l.length - 1) 0) ^ 2 =
      (valuesSquared l).sum := by
  rcases List.eq_nil_or_concat l with rfl | ⟨ys, z, rfl⟩
  · exact absurd rfl h
  · rw [List.concat_eq_append, valuesSquared_append, List.dropLast_concat]
    have hlen : (ys ++ [z]).length - 1 = ys.length := by simp
    have hget : (ys ++ [z]).getD ys.length 0 = z := by
      rw [List.getD_eq_getElem (ys ++ [z]) 0 (by simp)]
      exact List.getElem_concat_length ys z _ rfl _
    rw [hlen, hget]
    simp

/-- Head/last shift between the General-Linear `lag_squared` (first
observation dropped) and the OU `lag_sum_squared` (last observation
dropped). -/
lemma lag_squared_shift (l : List ℝ) (h : l ≠ []) :
    GeneralLinearLikelihoodComponentCalculator.calculateLagSquared l +
        (l.getD 0 0) ^ 2 =
      OrnsteinUhlenbeckLikelihoodComponentCalculator.calculateLagSumSquared l +
        (l.getD (l.length - 1) 0) ^ 2 := by
  have h1 := drop_one_squares_sum l h
  have h2 := dropLast_squares_sum l h
  rw [GeneralLinearLikelihoodComponentCalculator.calculateLagSquared,
    OrnsteinUhlenbeckLikelihoodComponentCalculator.calculateLagSumSquared,
    foldl_plus_eq_sum, foldl_plus_eq_sum]
  linarith

lemma getD_take_zero (s : List ℝ) (i k : ℕ) (h : i < k) :
    (s.take k).getD i 0 = s.getD i 0 := by
  by_cases hi : i < s.length
  · have hlen : i < (s.take k).length := by
      rw [List.length_take]
      omega
    rw [List.getD_eq_getElem (s.take k) 0 hlen, List.getD_eq_getElem s 0 hi]
    exact List.getElem_take s
  · rw [List.getD_eq_default (s.take k) 0
      (by rw [List.length_take]; omega),
      List.getD_eq_default s 0 (by omega)]

/-- Claim C2 (amended): for a split point `2 ≤ k ≤ |s|`, the General-Linear
batch-then-incremental procedure reproduces the full-series batch
`lead_lag_inner_product` and `n_obs` exactly, but its `lag_squared`
component differs from the full batch by `x_{k-1}² - x_{n-1}²` (the batch
`calculateLagSquared` drops the first squared observation while the
updater accumulates squared previous observations), so the resulting
parameters are not bit-identical in general. -/
theorem spec_C2 (s : List ℝ) (k : ℕ) (h2 : 2 ≤ s.length) (hk : 2 ≤ k)
    (hkn : k ≤ s.length) :
    (glBatchThenOnline s k).lead_lag_inner_product =
        (GeneralLinearLikelihood.calculateComponents
          s).lead_lag_inner_product ∧
      (glBatchThenOnline s k).n_obs =
        (GeneralLinearLikelihood.calculateComponents s).n_obs ∧
      (glBatchThenOnline s k).lag_squared + (s.getD (s.length - 1) 0) ^ 2 =
        (GeneralLinearLikelihood.calculateComponents s).lag_squared +
          (s.getD (k - 1) 0) ^ 2 := by
  have hou := ouBatchThenOnline_eq s k (by omega)
  have hllp_ou := congrArg
    OrnsteinUhlenbeckLikelihoodComponents.lead_lag_sum_product hou
  have hlag_ou := congrArg
    OrnsteinUhlenbeckLikelihoodComponents.lag_sum_squared hou
  rw [ouBatchThenOnline, ou_foldl_sum_product] at hllp_ou
  rw [ouBatchThenOnline, ou_foldl_lag_sum_squared] at hlag_ou
  simp only [OrnsteinUhlenbeckLikelihood.calculateComponents] at hllp_ou
  simp only [OrnsteinUhlenbeckLikelihood.calculateComponents] at hlag_ou
  refine ⟨?_, ?_, ?_⟩
  · rw [glBatchThenOnline, gl_foldl_inner_product]
    simp only [GeneralLinearLikelihood.calculateComponents,
      llip_eq_sum_product]
    exact hllp_ou
  · rw [glBatchThenOnline, gl_foldl_n_obs]
    simp only [GeneralLinearLikelihood.calculateComponents,
      List.length_zip, List.length_drop, List.length_take]
    omega
  · have hs_ne : s ≠ [] := by
      intro hnil
      rw [hnil] at h2
      simp at h2
    have ht_ne : s.take k ≠ [] := by
      intro hnil
      have hlen := congrArg List.length hnil
      rw [List.length_take] at hlen
      simp only [List.length_nil] at hlen
      omega
    have hshift_t := lag_squared_shift (s.take k) ht_ne
    have hshift_s := lag_squared_shift s hs_ne
    have hlen_take : (s.take k).length = k := by
      rw [List.length_take]
      omega
    have e1 : (s.take k).getD 0 0 = s.getD 0 0 :=
      getD_take_zero s 0 k (by omega)
    have e2 : s.getD (k - 1) 0 = (s.take k).getD (k - 1) 0 :=
      (getD_take_zero s (k - 1) k (by omega)).symm
    rw [hlen_take, e1] at hshift_t
    rw [glBatchThenOnline, gl_foldl_lag_squared]
    simp only [GeneralLinearLikelihood.calculateComponents]
    rw [e2]
    linarith [hshift_t, hshift_s, hlag_ou]

/-- Claim C2 (counterexample): on the series `[1, 2, 3]` with split point
`k = 2`, the batch-then-incremental General-Linear estimate has
`mu = log(8/8) = 0` while the full batch gives `mu = log(8/13) < 0`: the
parameters are not bit-identical. -/
theorem spec_C2_counterexample :
    GeneralLinearLikelihood.calculateParameters
        (glBatchThenOnline [1, 2, 3] 2) ≠
      GeneralLinearLikelihood.calculateParameters
        (GeneralLinearLikelihood.calculateComponents [1, 2, 3]) := by
  intro hEq
  have hmu := congrArg GeneralLinearParameters.mu hEq
  norm_num [GeneralLinearLikelihood.calculateParameters, glBatchThenOnline,
    GeneralLinearLikelihood.calculateComponents,
    GeneralLinearLikelihood.updateComponents,
    GeneralLinearLikelihoodComponentCalculator.calculateMu,
    GeneralLinearLikelihoodComponentCalculator.calculateSeriesMean,
    GeneralLinearLikelihoodComponentCalculator.calculateLagSquared,
    GeneralLinearLikelihoodComponentCalculator.calculateLeadLagInnerProduct,
    GeneralLinearLikelihoodComponentCalculator.updateLagSquared,
    GeneralLinearLikelihoodComponentCalculator.updateLeadLagInnerProduct,
    valuesSquared] at hmu
  have hneg := Real.log_neg (show (0 : ℝ) < 8 / 13 by norm_num)
    (show (8 : ℝ) / 13 < 1 by norm_num)
  rw [← hmu] at hneg
  simp at hneg

/-- Concrete instantiation of the amended claim C2 on the series
`[1, 2, 3]` split at `k = 2`. -/
theorem spec_C2_witness :
    2 ≤ ([1, 2, 3] : List ℝ).length ∧ (2 : ℕ) ≤ 2 ∧
      2 ≤ ([1, 2, 3] : List ℝ).length ∧
      ((glBatchThenOnline [1, 2, 3] 2).lead_lag_inner_product =
          (GeneralLinearLikelihood.calculateComponents
            [1, 2, 3]).lead_lag_inner_product ∧
        (glBatchThenOnline [1, 2, 3] 2).n_obs =
          (GeneralLinearLikelihood.calculateComponents [1, 2, 3]).n_obs ∧
        (glBatchThenOnline [1, 2, 3] 2).lag_squared +
            (([1, 2, 3] : List ℝ).getD
              (([1, 2, 3] : List ℝ).length - 1) 0) ^ 2 =
          (GeneralLinearLikelihood.calculateComponents
              [1, 2, 3]).lag_squared +
            (([1, 2, 3] : List ℝ).getD (2 - 1) 0) ^ 2) :=
  ⟨by norm_num, by norm_num, by norm_num,
    spec_C2 [1, 2, 3] 2 (by norm_num) (by norm_num) (by norm_num)⟩

lemma overwriteList_exact (src : List ℝ) (n : ℕ) (h : src.length = n) :
    overwriteList src (zerosVec n) = src := by
  simp [overwriteList, zerosVec, h]

lemma overwriteRows_cons (a : List ℝ) (as : Mat) (b : List ℝ) (bs : Mat) :
    overwriteRows (a :: as) (b :: bs) =
      overwriteList a b :: overwriteRows as bs := by
  simp [overwriteRows]

lemma overwriteRows_exact (src : Mat) (r c : ℕ) (hr : src.length = r)
    (hc : ∀ row ∈ src, row.length = c) :
    overwriteRows src (zerosMat r c) = src := by
  subst hr
  induction src with
  | nil => simp [overwriteRows, zerosMat]
  | cons hd tl ih =>
    have hhd : hd.length = c := hc hd (by simp)
    have htl : ∀ row ∈ tl, row.length = c := fun row hrow =>
      hc row (by simp [hrow])
    rw [show (hd :: tl).length = tl.length + 1 from rfl]
    rw [show zerosMat (tl.length + 1) c =
      zerosVec c :: zerosMat tl.length c from rfl]
    rw [overwriteRows_cons, overwriteList_exact hd c hhd, ih htl]

/-- Claim C7: deserialising a well-formed state blob (one whose six
represented fields have exactly the dimensioned shapes) and serialising
the result is the identity on the represented fields. -/
theorem spec_C7 (b : KcaStateBlob) (d : FilterSystemDimensions)
    (h1 : matShape b.transition_matrix d.state_covariance_rows
      d.state_covariance_columns)
    (h2 : matShape b.transition_covariance d.state_covariance_rows
      d.state_covariance_columns)
    (h3 : b.current_state_mean.length = d.state_mean_dimension)
    (h4 : matShape b.current_state_covariance d.state_covariance_rows
      d.state_covariance_columns)
    (h5 : matShape b.observation_matrix d.observation_matrix_rows
      d.observation_matrix_columns) :
    KcaStatesJsonAdapter.serialize (KcaStatesJsonAdapter.deserialize b d) =
      b := by
  obtain ⟨h1a, h1b⟩ := h1
  obtain ⟨h2a, h2b⟩ := h2
  obtain ⟨h4a, h4b⟩ := h4
  obtain ⟨h5a, h5b⟩ := h5
  simp only [KcaStatesJsonAdapter.serialize, KcaStatesJsonAdapter.deserialize,
    KcaStates.ofDimensions, KcaStates.setTransitionMatrix,
    KcaStates.setTransitionCovariance, KcaStates.setCurrentStateMean,
    KcaStates.setCurrentStateCovariance, KcaStates.setObservationMatrix,
    KcaStates.setObservationOffset, KcaStates.setInitialized]
  rw [overwriteRows_exact b.transition_matrix _ _ h1a h1b,
    overwriteRows_exact b.transition_covariance _ _ h2a h2b,
    overwriteList_exact b.current_state_mean _ h3,
    overwriteRows_exact b.current_state_covariance _ _ h4a h4b,
    overwriteRows_exact b.observation_matrix _ _ h5a h5b]

/-- Concrete instantiation of claim C7 on a 3-dimensional blob. -/
theorem spec_C7_witness :
    matShape [[1, 2, 3], [4, 5, 6], [7, 8, 9]] 3 3 ∧
      matShape [[1, 0, 0], [0, 1, 0], [0, 0, 1]] 3 3 ∧
      ([10, 11, 12] : Vec).length = 3 ∧
      matShape [[0, 0, 0], [0, 0, 0], [0, 0, 0]] 3 3 ∧
      matShape [[1, 0, 0]] 1 3 ∧
      KcaStatesJsonAdapter.serialize
          (KcaStatesJsonAdapter.deserialize
            ⟨[[1, 2, 3], [4, 5, 6], [7, 8, 9]],
              [[1, 0, 0], [0, 1, 0], [0, 0, 1]], [10, 11, 12],
              [[0, 0, 0], [0, 0, 0], [0, 0, 0]], [[1, 0, 0]], 2.5⟩
            ⟨3, 3, 3, 1, 3, 1, 1, 0⟩) =
        ⟨[[1, 2, 3], [4, 5, 6], [7, 8, 9]],
          [[1, 0, 0], [0, 1, 0], [0, 0, 1]], [10, 11, 12],
          [[0, 0, 0], [0, 0, 0], [0, 0, 0]], [[1, 0, 0]], 2.5⟩ := by
  refine ⟨by decide, by decide, rfl, by decide, by decide, ?_⟩
  exact spec_C7 _ _ (by decide) (by decide) rfl (by decide) (by decide)

/-- Claim C6: invoking the update operation
(`KcaStates::updateCurrentState` / `KineticComponents::updatePosteriors`)
on a state that is not initialised raises `NotInitialised`, and on an
initialised state whose priors are not valid raises `InvalidOperation`;
in both cases every field of the state is left unchanged (both guards
fire before any mutation). -/
theorem spec_C6 (s : KcaStates) (observation innovation_sigma : ℝ) :
    (s.filter_state.initialised = false →
        s.updateCurrentState observation innovation_sigma =
            (some .NotInitialised, s) ∧
          KineticComponents.updatePosteriors s observation
              innovation_sigma =
            (some .NotInitialised, s)) ∧
      (s.filter_state.initialised = true →
        s.filter_state.priors_set = false →
        s.updateCurrentState observation innovation_sigma =
            (some .InvalidOperation, s) ∧
          KineticComponents.updatePosteriors s observation
              innovation_sigma =
            (some .InvalidOperation, s)) := by
  constructor
  · intro h
    constructor <;>
      simp [KcaStates.updateCurrentState,
        KineticComponents.updatePosteriors, h]
  · intro h1 h2
    constructor <;>
      simp [KcaStates.updateCurrentState,
        KineticComponents.updatePosteriors, h1, h2]

/-- Concrete instantiation of claim C6: a freshly constructed (empty)
state rejects the update with `NotInitialised`, and an initialised state
that never ran predict rejects it with `InvalidOperation`, both without
mutating the state. -/
theorem spec_C6_witness :
    ((KcaStates.ofDimensions ⟨3, 3, 3, 1, 3, 1, 1, 0⟩).filter_state.initialised
        = false ∧
      (KcaStates.ofDimensions ⟨3, 3, 3, 1, 3, 1, 1, 0⟩).updateCurrentState 1 1
          = (some .NotInitialised,
            KcaStates.ofDimensions ⟨3, 3, 3, 1, 3, 1, 1, 0⟩) ∧
        KineticComponents.updatePosteriors
            (KcaStates.ofDimensions ⟨3, 3, 3, 1, 3, 1, 1, 0⟩) 1 1 =
          (some .NotInitialised,
            KcaStates.ofDimensions ⟨3, 3, 3, 1, 3, 1, 1, 0⟩)) ∧
      ((KcaStates.ofDimensions
          ⟨3, 3, 3, 1, 3, 1, 1, 0⟩).setInitialized.filter_state.initialised
          = true ∧
        (KcaStates.ofDimensions
          ⟨3, 3, 3, 1, 3, 1, 1, 0⟩).setInitialized.filter_state.priors_set
          = false ∧
        (KcaStates.ofDimensions
            ⟨3, 3, 3, 1, 3, 1, 1, 0⟩).setInitialized.updateCurrentState 1 1
          = (some .InvalidOperation,
            (KcaStates.ofDimensions ⟨3, 3, 3, 1, 3, 1, 1, 0⟩).setInitialized) ∧
        KineticComponents.updatePosteriors
            (KcaStates.ofDimensions ⟨3, 3, 3, 1, 3, 1, 1, 0⟩).setInitialized
            1 1 =
          (some .InvalidOperation,
            (KcaStates.ofDimensions
              ⟨3, 3, 3, 1, 3, 1, 1, 0⟩).setInitialized)) := by
  refine ⟨⟨rfl, ?_⟩, rfl, rfl, ?_⟩
  · exact (spec_C6 (KcaStates.ofDimensions ⟨3, 3, 3, 1, 3, 1, 1, 0⟩) 1 1).1 rfl
  · obtain ⟨ha, hb⟩ := (spec_C6
      (KcaStates.ofDimensions ⟨3, 3, 3, 1, 3, 1, 1, 0⟩).setInitialized 1 1).2
      rfl rfl
    exact ⟨ha, hb⟩

lemma predict_of_initialised (s : KcaStates)
    (h : s.filter_state.initialised = true) :
    (s.updatePredictedState).1 = none ∧
      (s.updatePredictedState).2.filter_state.initialised = true ∧
      (s.updatePredictedState).2.filter_state.priors_set = true := by
  simp [KcaStates.updatePredictedState, h, KcaStates.setPriorsTrue,
    KcaStates.setPredictedStateMean, KcaStates.setPredictedStateCovariance]

lemma update_of_valid (s : KcaStates) (observation innovation_sigma : ℝ)
    (h1 : s.filter_state.initialised = true)
    (h2 : s.filter_state.priors_set = true) :
    (s.updateCurrentState observation innovation_sigma).1 = none := by
  simp [KcaStates.updateCurrentState, h1, h2]

/-- Claim C10: `KcaStatesJsonAdapter::deserialize` always returns a state
with `initialised = true` and `priors_valid = false` (the flags are not
part of the blob), and consequently `getUpdatedKcaState` never raises
`NotInitialised` on a blob that parses successfully. -/
theorem spec_C10 (b : KcaStateBlob) (d : FilterSystemDimensions) :
    (KcaStatesJsonAdapter.deserialize b d).filter_state.initialised = true ∧
      (KcaStatesJsonAdapter.deserialize b d).filter_state.priors_set =
        false ∧
      ∀ observation innovation_sigma : ℝ,
        getUpdatedKcaState b d observation innovation_sigma ≠
          Except.error FilterFailure.NotInitialised := by
  refine ⟨rfl, rfl, ?_⟩
  intro observation innovation_sigma
  obtain ⟨hp1, hp2, hp3⟩ :=
    predict_of_initialised (KcaStatesJsonAdapter.deserialize b d) rfl
  simp only [getUpdatedKcaState, KineticComponents.updatePriors,
    KineticComponents.updatePosteriors]
  split
  next e snd heq =>
    rw [heq] at hp1
    simp at hp1
  next s1 heq =>
    rw [heq] at hp2 hp3
    have h4 := update_of_valid s1 observation innovation_sigma hp2 hp3
    split
    next e2 snd2 heq2 =>
      rw [heq2] at h4
      simp at h4
    next s2 heq2 =>
      simp

lemma hittingTimeDensityCore_continuous (m : HittingTimeOrnsteinUhlenbeck) :
    Continuous m.hittingTimeDensityCore := by
  unfold HittingTimeOrnsteinUhlenbeck.hittingTimeDensityCore
  fun_prop

lemma hittingTimeDensityCore_pos (m : HittingTimeOrnsteinUhlenbeck)
    (y : ℝ) : 0 < m.hittingTimeDensityCore y :=
  Real.exp_pos _

/-- Claim C9 (counterexample): at `μ = α = σ = 1`, `x = 1`, `a = 3`,
`b = 0`, the returned value `(∫_0^1 S)/(∫_0^3 S)` is strictly positive,
while the claimed value `(S(1) - S(0))/(S(3) - S(0)) =
(e⁻¹ - 1)/(e³ - 1)` is strictly negative: the entry point does not
return the claimed ratio of kernel values. -/
theorem spec_C9_counterexample :
    hittingTimeDensityOrnsteinUhlenbeck 1 1 1 1 3 0 ≠
      (HittingTimeOrnsteinUhlenbeck.hittingTimeDensityCore ⟨1, 1, 1⟩ 1 -
          HittingTimeOrnsteinUhlenbeck.hittingTimeDensityCore ⟨1, 1, 1⟩ 0) /
        (HittingTimeOrnsteinUhlenbeck.hittingTimeDensityCore ⟨1, 1, 1⟩ 3 -
          HittingTimeOrnsteinUhlenbeck.hittingTimeDensityCore ⟨1, 1, 1⟩ 0) := by
  have hc := hittingTimeDensityCore_continuous ⟨1, 1, 1⟩
  have hp := hittingTimeDensityCore_pos ⟨1, 1, 1⟩
  have hint1 :
      0 < ∫ u in (0:ℝ)..(1:ℝ),
        HittingTimeOrnsteinUhlenbeck.hittingTimeDensityCore ⟨1, 1, 1⟩ u :=
    intervalIntegral.intervalIntegral_pos_of_pos
      (hc.intervalIntegrable 0 1) hp (by norm_num)
  have hint3 :
      0 < ∫ u in (0:ℝ)..(3:ℝ),
        HittingTimeOrnsteinUhlenbeck.hittingTimeDensityCore ⟨1, 1, 1⟩ u :=
    intervalIntegral.intervalIntegral_pos_of_pos
      (hc.intervalIntegrable 0 3) hp (by norm_num)
  have hlhs : 0 < hittingTimeDensityOrnsteinUhlenbeck 1 1 1 1 3 0 := by
    rw [hittingTimeDensityOrnsteinUhlenbeck, hittingTimeDensity,
      adaptiveIntegration, adaptiveIntegration]
    exact div_pos hint1 hint3
  have hS1 : HittingTimeOrnsteinUhlenbeck.hittingTimeDensityCore ⟨1, 1, 1⟩ 1 =
      Real.exp (-1) := by
    rw [HittingTimeOrnsteinUhlenbeck.hittingTimeDensityCore]
    norm_num
  have hS0 : HittingTimeOrnsteinUhlenbeck.hittingTimeDensityCore ⟨1, 1, 1⟩ 0 =
      1 := by
    rw [HittingTimeOrnsteinUhlenbeck.hittingTimeDensityCore]
    norm_num
  have hS3 : HittingTimeOrnsteinUhlenbeck.hittingTimeDensityCore ⟨1, 1, 1⟩ 3 =
      Real.exp 3 := by
    rw [HittingTimeOrnsteinUhlenbeck.hittingTimeDensityCore]
    norm_num
  have hrhs : (HittingTimeOrnsteinUhlenbeck.hittingTimeDensityCore ⟨1, 1, 1⟩ 1 -
        HittingTimeOrnsteinUhlenbeck.hittingTimeDensityCore ⟨1, 1, 1⟩ 0) /
        (HittingTimeOrnsteinUhlenbeck.hittingTimeDensityCore ⟨1, 1, 1⟩ 3 -
          HittingTimeOrnsteinUhlenbeck.hittingTimeDensityCore ⟨1, 1, 1⟩ 0)
      < 0 := by
    rw [hS1, hS0, hS3]
    apply div_neg_of_neg_of_pos
    · have : Real.exp (-1) < 1 := Real.exp_lt_one_iff.mpr (by norm_num)
      linarith
    · have : 1 < Real.exp 3 := Real.one_lt_exp_iff.mpr (by norm_num)
      linarith
  intro hEq
  rw [hEq] at hlhs
  linarith

/-- Claim C9 (amended): `hitting_time_density_ou(x, μ, α, σ, a, b)`
returns `(Ŝ(x) - Ŝ(b))/(Ŝ(a) - Ŝ(b))` where `Ŝ` is any antiderivative of
the hitting-time kernel `S` of §4.E — i.e. the ratio of the integrals
`∫_b^x S` and `∫_b^a S` — not the same expression in `S` itself. -/
theorem spec_C9 (m : HittingTimeOrnsteinUhlenbeck) (hA : 0 < m.alpha)
    (hS : 0 < m.sigma) (x first second : ℝ) (Sh : ℝ → ℝ)
    (hSh : ∀ t, HasDerivAt Sh (m.hittingTimeDensityCore t) t) :
    hittingTimeDensity m x first second =
      (Sh x - Sh second) / (Sh first - Sh second) := by
  have hc := hittingTimeDensityCore_continuous m
  have h1 : ∫ u in second..x, m.hittingTimeDensityCore u = Sh x - Sh second :=
    intervalIntegral.integral_eq_sub_of_hasDerivAt (fun t _ => hSh t)
      (hc.intervalIntegrable second x)
  have h2 : ∫ u in second..first, m.hittingTimeDensityCore u =
      Sh first - Sh second :=
    intervalIntegral.integral_eq_sub_of_hasDerivAt (fun t _ => hSh t)
      (hc.intervalIntegrable second first)
  rw [hittingTimeDensity, adaptiveIntegration, adaptiveIntegration, h1, h2]

/-- Concrete instantiation of the amended claim C9, with the canonical
antiderivative `Ŝ(t) = ∫_0^t S`. -/
theorem spec_C9_witness :
    0 < (⟨0, 1, 1⟩ : HittingTimeOrnsteinUhlenbeck).alpha ∧
      0 < (⟨0, 1, 1⟩ : HittingTimeOrnsteinUhlenbeck).sigma ∧
      (∀ t : ℝ, HasDerivAt
        (fun u => ∫ v in (0:ℝ)..u,
          HittingTimeOrnsteinUhlenbeck.hittingTimeDensityCore ⟨0, 1, 1⟩ v)
        (HittingTimeOrnsteinUhlenbeck.hittingTimeDensityCore ⟨0, 1, 1⟩ t)
        t) ∧
      hittingTimeDensity ⟨0, 1, 1⟩ 1 2 0 =
        ((∫ v in (0:ℝ)..(1:ℝ),
            HittingTimeOrnsteinUhlenbeck.hittingTimeDensityCore ⟨0, 1, 1⟩ v) -
          ∫ v in (0:ℝ)..(0:ℝ),
            HittingTimeOrnsteinUhlenbeck.hittingTimeDensityCore ⟨0, 1, 1⟩ v) /
          ((∫ v in (0:ℝ)..(2:ℝ),
            HittingTimeOrnsteinUhlenbeck.hittingTimeDensityCore ⟨0, 1, 1⟩ v) -
            ∫ v in (0:ℝ)..(0:ℝ),
              HittingTimeOrnsteinUhlenbeck.hittingTimeDensityCore
                ⟨0, 1, 1⟩ v) := by
  have hc := hittingTimeDensityCore_continuous ⟨0, 1, 1⟩
  have hderiv : ∀ t : ℝ, HasDerivAt
      (fun u => ∫ v in (0:ℝ)..u,
        HittingTimeOrnsteinUhlenbeck.hittingTimeDensityCore ⟨0, 1, 1⟩ v)
      (HittingTimeOrnsteinUhlenbeck.hittingTimeDensityCore ⟨0, 1, 1⟩ t) t :=
    fun t => intervalIntegral.integral_hasDerivAt_right
      (hc.intervalIntegrable 0 t)
      (hc.stronglyMeasurableAtFilter MeasureTheory.volume (nhds t))
      hc.continuousAt
  exact ⟨by norm_num, by norm_num, hderiv,
    spec_C9 ⟨0, 1, 1⟩ (by norm_num) (by norm_num) 1 2 0 _ hderiv⟩
